import Mathlib

/-!
Shallow embedding of the memory subsystem of the clio-chatbot repository
(`src/clio_chatbot/memory/`), together with theorems settling the frozen
claims about it.

Modelling conventions:
* Python floats are modelled as exact rationals (`ℚ`).
* `datetime` values are modelled as rational epoch seconds; Python's
  `isoformat`/`fromisoformat` round-trip is exact, so a stored timestamp is
  modelled by its numeric value.
* ChromaDB collections are modelled as association lists from id to
  (document, metadata); the similarity ranking of `collection.query` is
  environment-dependent, so query results are passed in as the list of ids
  the backend returned.
* The SQLite tables of `exploration.py` are modelled as lists of rows in
  insertion order; `UPDATE ... WHERE` is a map over matching rows and
  `fetchone` takes the first matching row.
* Fallible operations return `Except String`; Python code with no raising
  path is modelled as a total function.
-/

namespace Clio

/-- `MemoryType` enum from `memory/base.py`. -/
inductive MemoryType where
  | working
  | episodic
  | semantic
  | longterm
deriving DecidableEq, Repr

/-- The `.value` string of a `MemoryType`. -/
def MemoryType.value : MemoryType → String
  | .working => "working"
  | .episodic => "episodic"
  | .semantic => "semantic"
  | .longterm => "longterm"

/-- Inverse of `MemoryType.value`.  Python's `MemoryType(s)` raises on an
unknown string; in the embedding all stored strings are produced by
`MemoryType.value`, so the error branch is unreachable and is modelled by
the default `semantic` used in `_recall_from_chroma`. -/
def MemoryType.ofValue (s : String) : MemoryType :=
  if s = "working" then .working
  else if s = "episodic" then .episodic
  else if s = "longterm" then .longterm
  else .semantic

/-- `EmotionalValence` enum from `memory/base.py`. -/
inductive EmotionalValence where
  | positive
  | negative
  | neutral
  | mixed
deriving DecidableEq, Repr

/-- The `.value` string of an `EmotionalValence`. -/
def EmotionalValence.value : EmotionalValence → String
  | .positive => "positive"
  | .negative => "negative"
  | .neutral => "neutral"
  | .mixed => "mixed"

/-- Inverse of `EmotionalValence.value`, defaulting to `neutral` as in
`_recall_from_chroma`. -/
def EmotionalValence.ofValue (s : String) : EmotionalValence :=
  if s = "positive" then .positive
  else if s = "negative" then .negative
  else if s = "mixed" then .mixed
  else .neutral

/-- A primitive metadata value (the value types Python stores in ChromaDB
metadata dictionaries and in `MemoryEntry.metadata`). -/
inductive MetaValue where
  | s (v : String)
  | n (v : ℚ)
  | i (v : ℤ)
  | b (v : Bool)
  | strList (v : List String)
  | null
deriving DecidableEq, Repr

/-- A metadata dictionary: an association list from key to value. -/
abbrev MetaDict := List (String × MetaValue)

/-- `dict.get(key)`: the first binding of `key`, if any. -/
def metaGet (m : MetaDict) (k : String) : Option MetaValue :=
  (m.find? (fun p => p.1 = k)).map (fun p => p.2)

/-- `dict.get(key, default)` for numeric values. -/
def metaGetNum (m : MetaDict) (k : String) (d : ℚ) : ℚ :=
  match metaGet m k with
  | some (.n v) => v
  | some (.i v) => (v : ℚ)
  | _ => d

/-- `dict.get(key, default)` for integer values. -/
def metaGetInt (m : MetaDict) (k : String) (d : ℤ) : ℤ :=
  match metaGet m k with
  | some (.i v) => v
  | _ => d

/-- `dict.get(key, default)` for string values. -/
def metaGetStr (m : MetaDict) (k : String) (d : String) : String :=
  match metaGet m k with
  | some (.s v) => v
  | _ => d

/-- `dict.get(key, default)` for boolean values. -/
def metaGetBool (m : MetaDict) (k : String) (d : Bool) : Bool :=
  match metaGet m k with
  | some (.b v) => v
  | _ => d

/-- `dict[key] = value`: overwrite the binding if the key is present,
otherwise append it. -/
def metaSet (m : MetaDict) (k : String) (v : MetaValue) : MetaDict :=
  if m.any (fun p => p.1 = k) then
    m.map (fun p => if p.1 = k then (p.1, v) else p)
  else
    m ++ [(k, v)]

/-- `MemoryEntry` dataclass from `memory/base.py`.  Timestamps are rational
epoch seconds; `access_count` is a Python `int`, modelled as `ℤ`. -/
structure MemoryEntry where
  id : String
  content : String
  memory_type : MemoryType
  timestamp : ℚ
  importance : ℚ := 1/2
  emotional_valence : EmotionalValence := .neutral
  emotional_intensity : ℚ := 0
  tags : List String := []
  source : String := "conversation"
  related_memories : List String := []
  access_count : ℤ := 0
  last_accessed : Option ℚ := none
  decay_rate : ℚ := 1/10
  metadata : MetaDict := []
deriving DecidableEq, Repr

/-- `MemoryEntry.get_effective_importance` from `memory/base.py`
(lines 93–105).  The Python code reads `datetime.now()`; the embedding
takes `now` (epoch seconds) as a parameter. -/
def MemoryEntry.get_effective_importance (e : MemoryEntry) (now : ℚ) : ℚ :=
  match e.last_accessed with
  | none => e.importance
  | some la =>
    let hours_since_access := (now - la) / 3600
    let decay_factor := max (1/10) (1 - e.decay_rate * hours_since_access / 24)
    let access_boost := min (3/10) ((e.access_count : ℚ) * (2/100))
    min 1 (e.importance * decay_factor + access_boost)

/-- Modelled from the spec (§3 of spec.md, claim C1): the effective-importance
formula as the spec states it, as a function of the entry's fields and the
hours elapsed since last access —
`min(1.0, importance × decayFactor(hours, decayRate) + accessBoost)` with
`decayFactor = max(0.1, 1 − decayRate×hours/24)` and
`accessBoost = min(0.3, accessCount×0.02)`. -/
def specEffectiveImportance (importance decayRate hours : ℚ) (accessCount : ℤ) : ℚ :=
  min 1 (importance * max (1/10) (1 - decayRate * hours / 24)
    + min (3/10) ((accessCount : ℚ) * (2/100)))

/-- Python's `",".join(tags)` used by `_store_in_chroma` to flatten the tag
list into one string. -/
def joinComma : List String → String
  | [] => ""
  | [t] => t
  | t :: rest => t ++ "," ++ joinComma rest

/-- Python's `s.split(",")` on character lists: splits at every comma,
keeping empty pieces, and yields `[[]]` on the empty input. -/
def splitOnComma : List Char → List (List Char)
  | [] => [[]]
  | c :: rest =>
    let r := splitOnComma rest
    if c = ',' then [] :: r
    else
      match r with
      | [] => [[c]]
      | h :: t => (c :: h) :: t

/-- The tag reconstruction in `_recall_from_chroma`:
`meta.get("tags", "").split(",") if meta.get("tags") else []` — the empty
string is falsy, giving `[]`; otherwise a comma split. -/
def splitTags (s : String) : List String :=
  if s = "" then [] else (splitOnComma s.data).map (fun cs => ⟨cs⟩)

/-- A document stored in a ChromaDB collection: the text plus its metadata
dictionary (`collection.add(documents=…, metadatas=…, ids=…)`). -/
structure ChromaDoc where
  document : String
  metadata : MetaDict
deriving DecidableEq, Repr

/-- A ChromaDB collection: an association list from id to stored document,
in insertion order. -/
structure Collection where
  docs : List (String × ChromaDoc)
deriving DecidableEq, Repr

/-- The empty collection. -/
def Collection.empty : Collection := ⟨[]⟩

/-- `collection.get(ids=[id])`: the first document stored under `id`. -/
def Collection.getById (c : Collection) (id : String) : Option ChromaDoc :=
  (c.docs.find? (fun p => p.1 = id)).map (fun p => p.2)

namespace BaseMemory

/-- The metadata dictionary `BaseMemory._store_in_chroma` builds from an
entry (`memory/base.py` lines 142–152).  Note which fields are absent:
`related_memories`, `last_accessed` and `entry.metadata` are never written
to ChromaDB; `tags` is flattened to a comma-joined string. -/
def chromaMetadata (e : MemoryEntry) : MetaDict :=
  [ ("memory_type", .s e.memory_type.value),
    ("importance", .n e.importance),
    ("timestamp", .n e.timestamp),
    ("emotional_valence", .s e.emotional_valence.value),
    ("emotional_intensity", .n e.emotional_intensity),
    ("tags", .s (joinComma e.tags)),
    ("source", .s e.source),
    ("access_count", .i e.access_count),
    ("decay_rate", .n e.decay_rate) ]

/-- `BaseMemory._store_in_chroma` (`memory/base.py` lines 140–160): add the
entry's content and flattened metadata to the collection under its id. -/
def storeInChroma (c : Collection) (e : MemoryEntry) : Collection :=
  ⟨c.docs ++ [(e.id, ⟨e.content, chromaMetadata e⟩)]⟩

/-- Reconstruction of a `MemoryEntry` from a ChromaDB document, as done in
`BaseMemory._recall_from_chroma` (`memory/base.py` lines 181–193).  The
constructor there omits `related_memories`, `last_accessed` and `metadata`,
so those fields take the dataclass defaults. -/
def entryFromChroma (id : String) (doc : ChromaDoc) (now : ℚ) : MemoryEntry :=
  { id := id
    content := doc.document
    memory_type := MemoryType.ofValue (metaGetStr doc.metadata "memory_type" "semantic")
    timestamp := metaGetNum doc.metadata "timestamp" now
    importance := metaGetNum doc.metadata "importance" (1/2)
    emotional_valence :=
      EmotionalValence.ofValue (metaGetStr doc.metadata "emotional_valence" "neutral")
    emotional_intensity := metaGetNum doc.metadata "emotional_intensity" 0
    tags := splitTags (metaGetStr doc.metadata "tags" "")
    source := metaGetStr doc.metadata "source" "unknown"
    related_memories := []
    access_count := metaGetInt doc.metadata "access_count" 0
    last_accessed := none
    decay_rate := metaGetNum doc.metadata "decay_rate" (1/10)
    metadata := [] }

/-- `BaseMemory._recall_from_chroma` (`memory/base.py` lines 162–196).
`collection.query` ranks by embedding similarity, which is environment
state; the embedding takes the list of ids the backend returned (each a
stored id matching the `where` filter) and rebuilds one entry per hit. -/
def recallFromChroma (c : Collection) (resultIds : List String) (now : ℚ) :
    List MemoryEntry :=
  resultIds.filterMap (fun id =>
    (c.getById id).map (fun doc => entryFromChroma id doc now))

end BaseMemory

/-- `KnowledgeCategory` enum from `memory/semantic.py`. -/
inductive KnowledgeCategory where
  | user_preference
  | user_fact
  | project_info
  | technical
  | relationship
  | world_knowledge
  | learned_behavior
deriving DecidableEq, Repr

/-- The `.value` string of a `KnowledgeCategory`. -/
def KnowledgeCategory.value : KnowledgeCategory → String
  | .user_preference => "user_preference"
  | .user_fact => "user_fact"
  | .project_info => "project_info"
  | .technical => "technical"
  | .relationship => "relationship"
  | .world_knowledge => "world_knowledge"
  | .learned_behavior => "learned_behavior"

namespace SemanticMemory

/-- `SemanticMemory._deprecate_fact` (`memory/semantic.py` lines 91–105):
fetch the fact's ChromaDB metadata; if present, set `deprecated = True`,
multiply the stored `importance` (default 0.5) by 0.3, and write the
modified dictionary back.  A missing id is a silent no-op (the whole body
is wrapped in `try/except: pass`). -/
def deprecateFact (c : Collection) (fact_id : String) : Collection :=
  match c.getById fact_id with
  | none => c
  | some doc =>
    let meta := metaSet (metaSet doc.metadata "deprecated" (.b true))
      "importance" (.n (metaGetNum doc.metadata "importance" (1/2) * (3/10)))
    ⟨c.docs.map (fun p => if p.1 = fact_id then (p.1, ⟨p.2.document, meta⟩) else p)⟩

/-- `SemanticMemory.store` (`memory/semantic.py` lines 40–89): optionally
deprecate the superseded fact, then build and store the new entry.  The id
generated from the wall clock is taken as the parameter `new_id`, and
`datetime.now()` as `now`. -/
def store (c : Collection) (content : String) (category : KnowledgeCategory)
    (importance confidence : ℚ) (tags : List String) (source : String)
    (related_facts : List String) (supersedes : Option String)
    (new_id : String) (now : ℚ) : Collection × MemoryEntry :=
  let c1 := match supersedes with
    | some fid => deprecateFact c fid
    | none => c
  let entry : MemoryEntry :=
    { id := new_id
      content := content
      memory_type := .semantic
      timestamp := now
      importance := importance
      emotional_valence := .neutral
      emotional_intensity := 0
      tags := tags
      source := source
      related_memories := related_facts
      access_count := 0
      last_accessed := none
      decay_rate := 1/100
      metadata :=
        [ ("category", .s category.value),
          ("confidence", .n confidence),
          ("supersedes", match supersedes with | some s => .s s | none => .null),
          ("verified", .b false) ] }
  (BaseMemory.storeInChroma c1 entry, entry)

/-- `SemanticMemory.recall` (`memory/semantic.py` lines 107–146): rebuild
entries from the backend's query hits, filter by
`metadata.get("confidence", 1.0) >= min_confidence` and
`not metadata.get("deprecated", False)`, and return the first `n_results`.
(The `_update_access` bumps on the returned entries mutate only backend
state, not the returned list.) -/
def «recall» (c : Collection) (queryResultIds : List String) (n_results : ℕ)
    (min_confidence : ℚ) (now : ℚ) : List MemoryEntry :=
  let entries := BaseMemory.recallFromChroma c queryResultIds now
  let filtered := entries.filter (fun e =>
    decide (min_confidence ≤ metaGetNum e.metadata "confidence" 1)
      && !(metaGetBool e.metadata "deprecated" false))
  filtered.take n_results

end SemanticMemory

/-- `ConsolidationType` enum from `memory/longterm.py`. -/
inductive ConsolidationType where
  | core_belief
  | relationship_essence
  | identity_marker
  | milestone
  | lesson_learned
  | pattern_summary
deriving DecidableEq, Repr

/-- The `.value` string of a `ConsolidationType`. -/
def ConsolidationType.value : ConsolidationType → String
  | .core_belief => "core_belief"
  | .relationship_essence => "relationship"
  | .identity_marker => "identity"
  | .milestone => "milestone"
  | .lesson_learned => "lesson"
  | .pattern_summary => "pattern"

namespace LongTermMemory

/-- `LongTermMemory.store` (`memory/longterm.py` lines 46–90): builds the
entry with `importance = max(0.8, importance)` and `decay_rate = 0.0`, then
stores it in ChromaDB. -/
def store (c : Collection) (content : String)
    (consolidation_type : ConsolidationType) (importance : ℚ)
    (emotional_valence : EmotionalValence) (emotional_intensity : ℚ)
    (tags : List String) (source_memories : List String)
    (new_id : String) (now : ℚ) : Collection × MemoryEntry :=
  let entry : MemoryEntry :=
    { id := new_id
      content := content
      memory_type := .longterm
      timestamp := now
      importance := max (8/10) importance
      emotional_valence := emotional_valence
      emotional_intensity := emotional_intensity
      tags := tags
      source := "consolidation"
      related_memories := source_memories
      access_count := 0
      last_accessed := none
      decay_rate := 0
      metadata :=
        [ ("consolidation_type", .s consolidation_type.value),
          ("consolidation_date", .n now),
          ("source_count", .i (source_memories.length : ℤ)) ] }
  (BaseMemory.storeInChroma c entry, entry)

end LongTermMemory

namespace EpisodicMemory

/-- `EpisodicMemory.store` (`memory/episodic.py` lines 28–68): builds an
episodic entry with `decay_rate = 0.05` and `metadata = context`, then
stores it in ChromaDB. -/
def store (c : Collection) (content : String) (importance : ℚ)
    (emotional_valence : EmotionalValence) (emotional_intensity : ℚ)
    (tags : List String) (source : String) (context : MetaDict)
    (related_episodes : List String) (new_id : String) (now : ℚ) :
    Collection × MemoryEntry :=
  let entry : MemoryEntry :=
    { id := new_id
      content := content
      memory_type := .episodic
      timestamp := now
      importance := importance
      emotional_valence := emotional_valence
      emotional_intensity := emotional_intensity
      tags := tags
      source := source
      related_memories := related_episodes
      access_count := 0
      last_accessed := none
      decay_rate := 5/100
      metadata := context }
  (BaseMemory.storeInChroma c entry, entry)

/-- `EpisodicMemory.store_conversation_episode` (`memory/episodic.py`
lines 255–291): computes
`importance = min(1.0, 0.4 + emotional_intensity*0.3 + duration_minutes/60*0.3)`
and stores the summary as an episodic entry tagged with the topics.  The
`time_of_day`/`day_of_week` strings of the context dictionary come from
the wall clock and are passed in. -/
def store_conversation_episode (c : Collection) (summary : String)
    (topics : List String) (emotional_valence : EmotionalValence)
    (emotional_intensity : ℚ) (key_moments : List String)
    (duration_minutes : ℚ) (time_of_day day_of_week : String)
    (new_id : String) (now : ℚ) : Collection × MemoryEntry :=
  let context : MetaDict :=
    [ ("type", .s "conversation"),
      ("topics", .strList topics),
      ("duration_minutes", .n duration_minutes),
      ("key_moments", .strList key_moments),
      ("time_of_day", .s time_of_day),
      ("day_of_week", .s day_of_week) ]
  let importance :=
    min 1 ((4/10) + emotional_intensity * (3/10) + duration_minutes / 60 * (3/10))
  store c summary importance emotional_valence emotional_intensity topics
    "conversation" context [] new_id now

end EpisodicMemory

/-- `MemoryManager.end_session` (`memory/manager.py` lines 88–151), the
memory-storing step: once the summary, topics, emotional valence/intensity
and session duration are determined (from the arguments or from working
memory), the method stores exactly one conversation episode via
`EpisodicMemory.store_conversation_episode`.  The shared-state write,
consolidation check and working-memory clear do not touch the stored
episode. -/
def MemoryManager.end_session_episode (c : Collection) (summary : String)
    (topics : List String) (valence : EmotionalValence) (intensity : ℚ)
    (key_moments : List String) (duration : ℚ)
    (time_of_day day_of_week : String) (new_id : String) (now : ℚ) :
    Collection × MemoryEntry :=
  EpisodicMemory.store_conversation_episode c summary topics valence intensity
    key_moments duration time_of_day day_of_week new_id now

/-- Modelled from the spec (§4.3 of spec.md, claim C8): the episode
importance as the spec states it —
`min(1, 0.4 + 0.3×intensity + 0.3×min(1, durationMin/60))`. -/
def specEpisodeImportance (intensity durationMin : ℚ) : ℚ :=
  min 1 ((4/10) + (3/10) * intensity + (3/10) * min 1 (durationMin / 60))

/-- `ThreadStatus` enum from `memory/exploration.py`. -/
inductive ThreadStatus where
  | active
  | dormant
  | concluded
deriving DecidableEq, Repr

/-- A row of the `threads` table (`memory/exploration.py`, schema lines
119–135 and the `ExplorationThread` dataclass).  `updated_at`/`created_at`
are rational epoch seconds; `depth` is a non-negative integer. -/
structure ThreadRow where
  id : String
  name : String
  question : String
  created_at : ℚ
  updated_at : ℚ
  status : ThreadStatus
  depth : ℕ
  root_introspection_id : String
  current_introspection_id : String
  branched_from_thread_id : Option String
  branched_from_link_id : Option String
  conclusion : Option String
  tags : List String
deriving DecidableEq, Repr

/-- A row of the `thread_links` table (`memory/exploration.py`, schema
lines 138–151 and the `ThreadLink` dataclass). -/
structure LinkRow where
  id : String
  thread_id : String
  introspection_id : String
  parent_link_id : Option String
  depth : ℕ
  question_at_this_point : String
  insight_summary : Option String
  created_at : ℚ
  leads_to_branches : List String
deriving DecidableEq, Repr

/-- The SQLite database of `ExplorationTracker`: the two tables, rows in
insertion order. -/
structure ExplorationDB where
  threads : List ThreadRow
  links : List LinkRow
deriving DecidableEq, Repr

/-- The freshly initialised database. -/
def ExplorationDB.empty : ExplorationDB := ⟨[], []⟩

namespace ExplorationTracker

/-- The reference-resolution of `continue_thread`/`get_thread`:
`SELECT * FROM threads WHERE id = ?` first, falling back to
`... WHERE name = ?`; `fetchone` yields the first matching row. -/
def resolveThread (db : ExplorationDB) (ref : String) : Option ThreadRow :=
  match db.threads.find? (fun t => t.id = ref) with
  | some t => some t
  | none => db.threads.find? (fun t => t.name = ref)

/-- `SELECT id FROM thread_links WHERE thread_id = ? ORDER BY depth DESC
LIMIT 1` (`continue_thread`, lines 296–302): among the thread's links, a
row of maximal depth (the first such row in table order). -/
def tailLink (links : List LinkRow) (tid : String) : Option LinkRow :=
  (links.filter (fun l => l.thread_id = tid)).foldl
    (fun acc l =>
      match acc with
      | none => some l
      | some b => if b.depth < l.depth then some l else acc)
    none

/-- `ExplorationTracker.start_thread` (`memory/exploration.py` lines
170–254): inserts a new thread with `depth = 1` and a root link with
`depth = 0`, `parent_link_id = NULL`.  The wall-clock-generated ids and
timestamp are the parameters `thread_id`, `link_id` and `now`. -/
def start_thread (db : ExplorationDB) (name question first_introspection_id : String)
    (insight_summary : Option String) (tags : List String)
    (thread_id link_id : String) (now : ℚ) : ExplorationDB × ThreadRow :=
  let thread : ThreadRow :=
    { id := thread_id
      name := name
      question := question
      created_at := now
      updated_at := now
      status := .active
      depth := 1
      root_introspection_id := first_introspection_id
      current_introspection_id := first_introspection_id
      branched_from_thread_id := none
      branched_from_link_id := none
      conclusion := none
      tags := tags }
  let link : LinkRow :=
    { id := link_id
      thread_id := thread_id
      introspection_id := first_introspection_id
      parent_link_id := none
      depth := 0
      question_at_this_point := question
      insight_summary := insight_summary
      created_at := now
      leads_to_branches := [] }
  (⟨db.threads ++ [thread], db.links ++ [link]⟩, thread)

/-- `ExplorationTracker.continue_thread` (`memory/exploration.py` lines
256–341): resolve the reference by id then name, raising `ValueError` if
unresolved; insert a link at the thread's current depth whose parent is
the current tail link; update the thread row to depth+1 with the new
current introspection and timestamp. -/
def continue_thread (db : ExplorationDB)
    (thread_ref new_introspection_id question : String)
    (insight_summary : Option String) (link_id : String) (now : ℚ) :
    Except String (ExplorationDB × LinkRow) :=
  match resolveThread db thread_ref with
  | none => .error ("Thread " ++ thread_ref ++ " not found")
  | some row =>
    let actual_thread_id := row.id
    let current_depth := row.depth
    let parent_link_id := (tailLink db.links actual_thread_id).map (fun l => l.id)
    let new_depth := current_depth
    let link : LinkRow :=
      { id := link_id
        thread_id := actual_thread_id
        introspection_id := new_introspection_id
        parent_link_id := parent_link_id
        depth := new_depth
        question_at_this_point := question
        insight_summary := insight_summary
        created_at := now
        leads_to_branches := [] }
    let threads := db.threads.map (fun t =>
      if t.id = actual_thread_id then
        { t with
            depth := new_depth + 1
            current_introspection_id := new_introspection_id
            updated_at := now }
      else t)
    .ok (⟨threads, db.links ++ [link]⟩, link)

/-- The `leads_to_branches` update of `branch_thread` (lines 433–442):
`SELECT leads_to_branches FROM thread_links WHERE id = ?` (first matching
row, if any), append the new thread id, and `UPDATE` every row with that
id to the resulting list.  No matching row means no update. -/
def updateOriginLink (links : List LinkRow) (from_link_id new_thread_id : String) :
    List LinkRow :=
  match links.find? (fun l => l.id = from_link_id) with
  | none => links
  | some l0 =>
    links.map (fun l =>
      if l.id = from_link_id then
        { l with leads_to_branches := l0.leads_to_branches ++ [new_thread_id] }
      else l)

/-- `ExplorationTracker.branch_thread` (`memory/exploration.py` lines
343–447): unconditionally inserts a new thread (depth 1, origin pointers
to `from_thread_id`/`from_link_id`) and its root link, then — only if the
origin link exists — appends the new thread id to that link's
`leads_to_branches`.  There is no raising path: an unresolved parent
reference is never checked. -/
def branch_thread (db : ExplorationDB) (from_thread_id from_link_id : String)
    (new_name new_question first_introspection_id : String)
    (insight_summary : Option String) (tags : List String)
    (thread_id link_id : String) (now : ℚ) : ExplorationDB × ThreadRow :=
  let thread : ThreadRow :=
    { id := thread_id
      name := new_name
      question := new_question
      created_at := now
      updated_at := now
      status := .active
      depth := 1
      root_introspection_id := first_introspection_id
      current_introspection_id := first_introspection_id
      branched_from_thread_id := some from_thread_id
      branched_from_link_id := some from_link_id
      conclusion := none
      tags := tags }
  let link : LinkRow :=
    { id := link_id
      thread_id := thread_id
      introspection_id := first_introspection_id
      parent_link_id := none
      depth := 0
      question_at_this_point := new_question
      insight_summary := insight_summary
      created_at := now
      leads_to_branches := [] }
  (⟨db.threads ++ [thread],
    updateOriginLink db.links from_link_id thread_id ++ [link]⟩, thread)

/-- `ExplorationTracker.set_thread_status` (`memory/exploration.py` lines
449–473): `UPDATE threads SET status = ?, conclusion = ?, updated_at = ?
WHERE id = ?`.  An id matching no row updates nothing and raises
nothing. -/
def set_thread_status (db : ExplorationDB) (thread_id : String)
    (status : ThreadStatus) (conclusion : Option String) (now : ℚ) :
    ExplorationDB :=
  ⟨db.threads.map (fun t =>
      if t.id = thread_id then
        { t with status := status, conclusion := conclusion, updated_at := now }
      else t),
    db.links⟩

end ExplorationTracker

/-! ## Theorems settling the claims -/

/-- A concrete entry refuting claim C1: `last_accessed` unset but
`access_count = 5 > 0`. -/
def entryUnaccessed : MemoryEntry :=
  { id := "fact_a"
    content := "a"
    memory_type := .semantic
    timestamp := 0
    importance := 0
    access_count := 5
    last_accessed := none
    decay_rate := 1/10 }

/-- C1 (counterexample): for an entry whose `lastAccessedAt` is unset but
whose `accessCount` is 5, `get_effective_importance` does not equal the
spec formula.  The code returns the raw importance `0`, while the spec
formula with these fields yields `min(1, 0×decayFactor + min(0.3, 5×0.02))
= 0.1` — at hours = 0 as stated here, and indeed at every hours value,
since the importance factor is 0. -/
theorem get_effective_importance_ne_spec_when_unaccessed :
    entryUnaccessed.get_effective_importance 0
      ≠ specEffectiveImportance entryUnaccessed.importance
          entryUnaccessed.decay_rate 0 entryUnaccessed.access_count := by
  norm_num [entryUnaccessed, MemoryEntry.get_effective_importance,
    specEffectiveImportance]

/-- C1 (amended): `get_effective_importance` equals the spec formula (with
hours = elapsed seconds / 3600) whenever `lastAccessedAt` is set; when it
is unset the method returns the raw importance, ignoring `accessCount`. -/
theorem get_effective_importance_eq_spec (e : MemoryEntry) (now : ℚ) :
    (∀ la : ℚ, e.last_accessed = some la →
      e.get_effective_importance now
        = specEffectiveImportance e.importance e.decay_rate
            ((now - la) / 3600) e.access_count)
    ∧ (e.last_accessed = none →
        e.get_effective_importance now = e.importance) := by
  constructor
  · intro la hla
    simp [MemoryEntry.get_effective_importance, specEffectiveImportance, hla]
  · intro hla
    simp [MemoryEntry.get_effective_importance, hla]

/-- A concrete entry with `last_accessed` set (epoch 0), importance 1/2,
access count 5, decay rate 1/10. -/
def entryAccessed : MemoryEntry :=
  { id := "fact_b"
    content := "b"
    memory_type := .semantic
    timestamp := 0
    importance := 1/2
    access_count := 5
    last_accessed := some 0
    decay_rate := 1/10 }

/-- Witness for C1's amended theorem at `entryAccessed`, two hours after
the last access. -/
theorem get_effective_importance_eq_spec_witness :
    entryAccessed.get_effective_importance 7200
      = specEffectiveImportance entryAccessed.importance
          entryAccessed.decay_rate ((7200 - 0) / 3600)
          entryAccessed.access_count :=
  (get_effective_importance_eq_spec entryAccessed 7200).1 0 rfl

/-- C2: for every entry whose fields satisfy the data-model ranges
(`importance ∈ [0,1]`, `decayRate ∈ [0,1]`, `accessCount ≥ 0`),
`get_effective_importance` lies in `[0,1]`, for every wall-clock time
(hence every elapsed time, even negative skew) and every access count. -/
theorem get_effective_importance_range (e : MemoryEntry) (now : ℚ)
    (h1 : 0 ≤ e.importance) (h2 : e.importance ≤ 1)
    (_hd : 0 ≤ e.decay_rate ∧ e.decay_rate ≤ 1)
    (h5 : 0 ≤ e.access_count) :
    0 ≤ e.get_effective_importance now
      ∧ e.get_effective_importance now ≤ 1 := by
  unfold MemoryEntry.get_effective_importance
  cases hla : e.last_accessed with
  | none => exact ⟨h1, h2⟩
  | some la =>
    have hdf : (0:ℚ) ≤ max (1/10) (1 - e.decay_rate * ((now - la) / 3600) / 24) :=
      le_trans (by norm_num) (le_max_left _ _)
    have hcount : (0:ℚ) ≤ (e.access_count : ℚ) := by exact_mod_cast h5
    have hboost : (0:ℚ) ≤ min (3/10) ((e.access_count : ℚ) * (2/100)) :=
      le_min (by norm_num) (mul_nonneg hcount (by norm_num))
    refine ⟨le_min (by norm_num) ?_, min_le_left _ _⟩
    exact add_nonneg (mul_nonneg h1 hdf) hboost

/-- Witness for C2 at a concrete in-range entry. -/
theorem get_effective_importance_range_witness :
    0 ≤ entryAccessed.get_effective_importance 720000
      ∧ entryAccessed.get_effective_importance 720000 ≤ 1 :=
  get_effective_importance_range entryAccessed 720000
    (by norm_num [entryAccessed]) (by norm_num [entryAccessed])
    (by norm_num [entryAccessed]) (by norm_num [entryAccessed])

/-- The collection after storing the fact "User likes tea" (importance 0.5,
confidence 1). -/
def semCollection0 : Collection :=
  (SemanticMemory.store Collection.empty "User likes tea" .user_fact (1/2) 1
    [] "conversation" [] none "fact_tea" 0).1

/-- The collection after additionally storing "User likes coffee" with
`supersedes = "fact_tea"`, which runs `_deprecate_fact` on the old id. -/
def semCollection1 : Collection :=
  (SemanticMemory.store semCollection0 "User likes coffee" .user_fact (1/2) 1
    [] "conversation" [] (some "fact_tea") "fact_coffee" 10).1

/-- C4: the deprecation half of the claim holds in the backend — after
`store(fact, supersedes="fact_tea")` the stored metadata of `fact_tea` has
`importance = 0.3 × 0.5 = 0.15` and `deprecated = True` — yet
`SemanticMemory.recall` still returns the deprecated fact whenever the
similarity backend surfaces it: `_recall_from_chroma` rebuilds entries
without their `metadata` dictionary, so the `deprecated`/`confidence`
filter in `recall` (semantic.py lines 133–140) always sees an empty
dictionary and keeps every hit.  This evaluates the code at the failing
input. -/
theorem semantic_recall_returns_deprecated :
    (semCollection1.getById "fact_tea").map
        (fun d => (metaGetNum d.metadata "importance" 0,
                   metaGetBool d.metadata "deprecated" false))
      = some ((1/2) * (3/10), true)
    ∧ (1:ℚ)/2 * (3/10) = 3/20
    ∧ (SemanticMemory.«recall» semCollection1 ["fact_tea"] 5 0 10).map
        (fun e => e.id)
      = ["fact_tea"] := by
  refine ⟨rfl, by norm_num, rfl⟩

/-- C5 (counterexample): on the empty tracker database,
`continue_thread("nonexistent-id", …)` does raise — but
`branch_thread("nonexistent-id", "nonexistent-link", …)`, which the claim
says must also raise and create nothing, completes without raising and
fabricates a brand-new thread (plus root link). -/
theorem branch_thread_fabricates_on_unresolved_ref :
    ExplorationTracker.continue_thread ExplorationDB.empty "nonexistent-id"
        "intro_1" "why" none "link_1" 0
      = .error "Thread nonexistent-id not found"
    ∧ ((ExplorationTracker.branch_thread ExplorationDB.empty "nonexistent-id"
        "nonexistent-link" "branch" "what" "intro_1" none [] "thread_1"
        "link_1" 0).1.threads.length = 1) := by
  constructor
  · rfl
  · rfl

/-- When the reference matches no thread id and no thread name, the
id-then-name resolution finds nothing. -/
lemma resolveThread_none (db : ExplorationDB) (r : String)
    (h : ∀ t ∈ db.threads, t.id ≠ r ∧ t.name ≠ r) :
    ExplorationTracker.resolveThread db r = none := by
  have hid : db.threads.find? (fun t => t.id = r) = none := by
    rw [List.find?_eq_none]
    intro t ht
    simpa using (h t ht).1
  have hname : db.threads.find? (fun t => t.name = r) = none := by
    rw [List.find?_eq_none]
    intro t ht
    simpa using (h t ht).2
  simp [ExplorationTracker.resolveThread, hid, hname]

/-- An unresolved reference makes `continue_thread` raise. -/
lemma continue_thread_error (db : ExplorationDB) (r i q : String)
    (s : Option String) (lid : String) (now : ℚ)
    (h : ∀ t ∈ db.threads, t.id ≠ r ∧ t.name ≠ r) :
    ExplorationTracker.continue_thread db r i q s lid now
      = .error ("Thread " ++ r ++ " not found") := by
  simp [ExplorationTracker.continue_thread, resolveThread_none db r h]

/-- C5 (amended): when the reference matches no thread id and no thread
name, `continue_thread` raises a lookup failure (`ValueError`) and creates
no thread or link; `branch_thread`, by contrast, never validates its
parent reference — it always completes, appending exactly one new thread
(with origin pointers to the given, possibly dangling, reference). -/
theorem continue_raises_branch_never_validates (db : ExplorationDB)
    (r i q : String) (s : Option String) (lid : String) (now : ℚ)
    (nn nq fi : String) (s2 : Option String) (tg : List String)
    (tid2 lid2 : String) (now2 : ℚ)
    (h : ∀ t ∈ db.threads, t.id ≠ r ∧ t.name ≠ r) :
    ExplorationTracker.continue_thread db r i q s lid now
      = .error ("Thread " ++ r ++ " not found")
    ∧ (ExplorationTracker.branch_thread db r r nn nq fi s2 tg tid2 lid2
        now2).1.threads
      = db.threads
        ++ [(ExplorationTracker.branch_thread db r r nn nq fi s2 tg tid2
              lid2 now2).2] :=
  ⟨continue_thread_error db r i q s lid now h, rfl⟩

/-- Witness for C5's amended theorem on the empty database. -/
theorem continue_raises_branch_never_validates_witness :
    ExplorationTracker.continue_thread ExplorationDB.empty "missing"
        "intro_2" "how" none "link_2" 0
      = .error ("Thread " ++ "missing" ++ " not found")
    ∧ (ExplorationTracker.branch_thread ExplorationDB.empty "missing"
        "missing" "nb" "nq" "intro_2" none [] "thread_2" "link_2" 0).1.threads
      = ExplorationDB.empty.threads
        ++ [(ExplorationTracker.branch_thread ExplorationDB.empty "missing"
              "missing" "nb" "nq" "intro_2" none [] "thread_2" "link_2"
              0).2] :=
  continue_raises_branch_never_validates ExplorationDB.empty "missing"
    "intro_2" "how" none "link_2" 0 "nb" "nq" "intro_2" none [] "thread_2"
    "link_2" 0 (by intro t ht; simp [ExplorationDB.empty] at ht)

/-- The inputs of a start-then-continue-N-times scenario: the thread's
name, driving question and tags, the generated thread id, and per-step
introspection ids, questions, insight summaries, link ids and wall-clock
times. -/
structure ContinueScenario where
  name : String
  tags : List String
  tid : String
  iid : ℕ → String
  qf : ℕ → String
  ins : ℕ → Option String
  lid : ℕ → String
  times : ℕ → ℚ

/-- The database after `start_thread` followed by `n` `continue_thread`
calls addressed to the started thread's id.  The error branch is a junk
value: the accompanying lemmas prove every step returns `.ok`. -/
def scenarioStep (p : ContinueScenario) : ℕ → ExplorationDB
  | 0 =>
    (ExplorationTracker.start_thread ExplorationDB.empty p.name (p.qf 0)
      (p.iid 0) (p.ins 0) p.tags p.tid (p.lid 0) (p.times 0)).1
  | n + 1 =>
    match ExplorationTracker.continue_thread (scenarioStep p n) p.tid
        (p.iid (n+1)) (p.qf (n+1)) (p.ins (n+1)) (p.lid (n+1))
        (p.times (n+1)) with
    | .ok out => out.1
    | .error _ => ExplorationDB.empty

/-- The link the scenario is expected to hold at position `j`. -/
def expectedLink (p : ContinueScenario) (j : ℕ) : LinkRow :=
  { id := p.lid j
    thread_id := p.tid
    introspection_id := p.iid j
    parent_link_id := match j with | 0 => none | k + 1 => some (p.lid k)
    depth := j
    question_at_this_point := p.qf j
    insight_summary := p.ins j
    created_at := p.times j
    leads_to_branches := [] }

/-- The thread row the scenario is expected to hold after `N` continues. -/
def expectedThread (p : ContinueScenario) (N : ℕ) : ThreadRow :=
  { id := p.tid
    name := p.name
    question := p.qf 0
    created_at := p.times 0
    updated_at := p.times N
    status := .active
    depth := N + 1
    root_introspection_id := p.iid 0
    current_introspection_id := p.iid N
    branched_from_thread_id := none
    branched_from_link_id := none
    conclusion := none
    tags := p.tags }

/-- `tailLink` on the expected link table finds the deepest link, the one
at position `N`. -/
lemma tailLink_expected (p : ContinueScenario) (N : ℕ) :
    ExplorationTracker.tailLink ((List.range (N+1)).map (expectedLink p))
        p.tid
      = some (expectedLink p N) := by
  induction N with
  | zero =>
    simp [ExplorationTracker.tailLink, expectedLink, List.range_succ]
  | succ n ih =>
    simp only [ExplorationTracker.tailLink] at ih ⊢
    rw [List.range_succ, List.map_append, List.filter_append,
      List.foldl_append, ih]
    simp [expectedLink]

/-- One `continue_thread` step on the expected state yields the expected
next state. -/
lemma continue_thread_expected (p : ContinueScenario) (n : ℕ) :
    ExplorationTracker.continue_thread
        ⟨[expectedThread p n], (List.range (n+1)).map (expectedLink p)⟩
        p.tid (p.iid (n+1)) (p.qf (n+1)) (p.ins (n+1)) (p.lid (n+1))
        (p.times (n+1))
      = .ok (⟨[expectedThread p (n+1)],
              (List.range (n+2)).map (expectedLink p)⟩,
             expectedLink p (n+1)) := by
  have hfind : List.find? (fun t => t.id = p.tid) [expectedThread p n]
      = some (expectedThread p n) := by simp [expectedThread]
  simp only [ExplorationTracker.continue_thread,
    ExplorationTracker.resolveThread, hfind]
  rw [show (expectedThread p n).id = p.tid from rfl, tailLink_expected]
  simp [expectedThread, expectedLink, List.range_succ]

/-- The scenario state is exactly the expected one: a single thread row of
depth `N+1` and the links `0..N`. -/
lemma scenarioStep_eq (p : ContinueScenario) (N : ℕ) :
    scenarioStep p N
      = ⟨[expectedThread p N], (List.range (N+1)).map (expectedLink p)⟩ := by
  induction N with
  | zero =>
    simp [scenarioStep, ExplorationTracker.start_thread, expectedThread,
      expectedLink, ExplorationDB.empty, List.range_succ]
  | succ n ih =>
    simp only [scenarioStep]
    rw [ih, continue_thread_expected]

/-- C6: `start_thread` followed by `N` `continue_thread` calls on the
created thread yields exactly `N+1` links whose depths are `0..N` in
creation order, the thread's depth field is `N+1`, and each of the `N`
continuation calls succeeds (returns `.ok`, chaining the states). -/
theorem start_then_continue_depths (p : ContinueScenario) (N : ℕ) :
    (scenarioStep p N).links.length = N + 1
    ∧ (scenarioStep p N).links.map (fun l => l.depth) = List.range (N + 1)
    ∧ (scenarioStep p N).threads.map (fun t => t.depth) = [N + 1]
    ∧ (∀ n, n < N →
        ExplorationTracker.continue_thread (scenarioStep p n) p.tid
            (p.iid (n+1)) (p.qf (n+1)) (p.ins (n+1)) (p.lid (n+1))
            (p.times (n+1))
          = .ok (scenarioStep p (n+1), expectedLink p (n+1))) := by
  refine ⟨?_, ?_, ?_, ?_⟩
  · rw [scenarioStep_eq]; simp
  · rw [scenarioStep_eq]
    simp only [List.map_map]
    have h : ((fun l => LinkRow.depth l) ∘ expectedLink p) = fun j => j := by
      funext j; rfl
    rw [h]
    simp
  · rw [scenarioStep_eq]; simp [expectedThread]
  · intro n _
    rw [scenarioStep_eq, scenarioStep_eq]
    exact continue_thread_expected p n

/-- A concrete scenario instantiation for the C6 witness. -/
def sampleScenario : ContinueScenario :=
  { name := "what-is-memory"
    tags := []
    tid := "thread_0"
    iid := fun n => "intro_" ++ toString n
    qf := fun n => "q" ++ toString n
    ins := fun _ => none
    lid := fun n => "link_" ++ toString n
    times := fun n => (n : ℚ) }

/-- Witness for C6 at `N = 2`. -/
theorem start_then_continue_depths_witness :
    (scenarioStep sampleScenario 2).links.length = 2 + 1
    ∧ (scenarioStep sampleScenario 2).links.map (fun l => l.depth)
        = List.range (2 + 1)
    ∧ (scenarioStep sampleScenario 2).threads.map (fun t => t.depth)
        = [2 + 1]
    ∧ (∀ n, n < 2 →
        ExplorationTracker.continue_thread (scenarioStep sampleScenario n)
            sampleScenario.tid (sampleScenario.iid (n+1))
            (sampleScenario.qf (n+1)) (sampleScenario.ins (n+1))
            (sampleScenario.lid (n+1)) (sampleScenario.times (n+1))
          = .ok (scenarioStep sampleScenario (n+1),
                 expectedLink sampleScenario (n+1))) :=
  start_then_continue_depths sampleScenario 2

/-- C3: every entry returned by `LongTermMemory.store` — whatever
importance argument was passed, including values below 0.8 — has
`decay_rate = 0` and `importance ≥ 0.8`. -/
theorem longterm_store_invariant (c : Collection) (content : String)
    (ct : ConsolidationType) (importance : ℚ) (v : EmotionalValence)
    (intensity : ℚ) (tags source_memories : List String)
    (new_id : String) (now : ℚ) :
    (LongTermMemory.store c content ct importance v intensity tags
        source_memories new_id now).2.decay_rate = 0
    ∧ (8:ℚ)/10 ≤ (LongTermMemory.store c content ct importance v intensity
        tags source_memories new_id now).2.importance :=
  ⟨rfl, le_max_left _ _⟩

/-- Witness for C3 at a concrete low-importance store. -/
theorem longterm_store_invariant_witness :
    (LongTermMemory.store Collection.empty "core" .lesson_learned (1/10)
        .neutral 0 [] [] "core_1" 0).2.decay_rate = 0
    ∧ (8:ℚ)/10 ≤ (LongTermMemory.store Collection.empty "core"
        .lesson_learned (1/10) .neutral 0 [] [] "core_1" 0).2.importance :=
  longterm_store_invariant Collection.empty "core" .lesson_learned (1/10)
    .neutral 0 [] [] "core_1" 0

/-- C7: `branch_thread` preserves every pre-existing thread row verbatim
(in particular the parent thread's `depth` and `current_introspection_id`),
appends exactly the new thread and its root link, and its only mutation of
pre-existing state is on `leads_to_branches`: a link whose id differs from
the origin link id is unchanged, and the origin link (the first row found
under `from_link_id`) gains exactly the new thread's id. -/
theorem branch_thread_frame (db : ExplorationDB)
    (fromT fromL nn nq fi : String) (s : Option String)
    (tg : List String) (tid lid : String) (now : ℚ) :
    (ExplorationTracker.branch_thread db fromT fromL nn nq fi s tg tid lid
        now).1.threads
      = db.threads ++ [(ExplorationTracker.branch_thread db fromT fromL nn
          nq fi s tg tid lid now).2]
    ∧ (ExplorationTracker.branch_thread db fromT fromL nn nq fi s tg tid
        lid now).1.links.length = db.links.length + 1
    ∧ (∀ l ∈ ExplorationTracker.updateOriginLink db.links fromL tid,
        ∃ l0 ∈ db.links,
          l.id = l0.id ∧ l.thread_id = l0.thread_id
          ∧ l.introspection_id = l0.introspection_id
          ∧ l.parent_link_id = l0.parent_link_id ∧ l.depth = l0.depth
          ∧ l.question_at_this_point = l0.question_at_this_point
          ∧ l.insight_summary = l0.insight_summary
          ∧ l.created_at = l0.created_at)
    ∧ (∀ l ∈ db.links, l.id ≠ fromL →
        l ∈ (ExplorationTracker.branch_thread db fromT fromL nn nq fi s tg
              tid lid now).1.links)
    ∧ (∀ l0, db.links.find? (fun l => l.id = fromL) = some l0 →
        { l0 with leads_to_branches := l0.leads_to_branches ++ [tid] }
          ∈ (ExplorationTracker.branch_thread db fromT fromL nn nq fi s tg
              tid lid now).1.links) := by
  refine ⟨rfl, ?_, ?_, ?_, ?_⟩
  · simp only [ExplorationTracker.branch_thread,
      ExplorationTracker.updateOriginLink]
    cases db.links.find? (fun l => l.id = fromL) <;> simp
  · intro l hl
    simp only [ExplorationTracker.updateOriginLink] at hl
    cases hfind : db.links.find? (fun l => l.id = fromL) with
    | none =>
      rw [hfind] at hl
      exact ⟨l, hl, rfl, rfl, rfl, rfl, rfl, rfl, rfl, rfl⟩
    | some l0 =>
      rw [hfind] at hl
      obtain ⟨l1, hl1, rfl⟩ := List.mem_map.mp hl
      refine ⟨l1, hl1, ?_⟩
      by_cases hid : l1.id = fromL <;> simp [hid]
  · intro l hl hne
    simp only [ExplorationTracker.branch_thread]
    apply List.mem_append_left
    simp only [ExplorationTracker.updateOriginLink]
    cases hfind : db.links.find? (fun l => l.id = fromL) with
    | none => exact hl
    | some l0 =>
      have : (fun l => if l.id = fromL then
          { l with leads_to_branches := l0.leads_to_branches ++ [tid] }
          else l) l = l := by
        simp [hne]
      rw [← this]
      exact List.mem_map_of_mem _ hl
  · intro l0 hfind
    simp only [ExplorationTracker.branch_thread]
    apply List.mem_append_left
    simp only [ExplorationTracker.updateOriginLink, hfind]
    have hmem : l0 ∈ db.links := List.mem_of_find?_eq_some hfind
    have hid : l0.id = fromL := by
      have := List.find?_some hfind
      simpa using this
    have : (fun l => if l.id = fromL then
        { l with leads_to_branches := l0.leads_to_branches ++ [tid] }
        else l) l0
        = { l0 with leads_to_branches := l0.leads_to_branches ++ [tid] } := by
      simp [hid]
    rw [← this]
    exact List.mem_map_of_mem _ hmem

/-- A one-thread, one-link tracker database built by `start_thread`. -/
def wDB : ExplorationDB :=
  (ExplorationTracker.start_thread ExplorationDB.empty "t" "q" "i0" none []
    "thread_a" "link_a" 0).1

/-- The root link of `wDB`. -/
def wLink : LinkRow :=
  { id := "link_a"
    thread_id := "thread_a"
    introspection_id := "i0"
    parent_link_id := none
    depth := 0
    question_at_this_point := "q"
    insight_summary := none
    created_at := 0
    leads_to_branches := [] }

/-- Witness for C7: branching `wDB` at its root link records the new
thread id on that link. -/
theorem branch_thread_frame_witness :
    { wLink with leads_to_branches := wLink.leads_to_branches ++ ["thread_b"] }
      ∈ (ExplorationTracker.branch_thread wDB "thread_a" "link_a" "nb" "nq"
          "i1" none [] "thread_b" "link_b" 1).1.links :=
  (branch_thread_frame wDB "thread_a" "link_a" "nb" "nq" "i1" none []
    "thread_b" "link_b" 1).2.2.2.2 wLink rfl

/-- The episode stored for a 180-minute, zero-intensity session. -/
def episodeLong : MemoryEntry :=
  (EpisodicMemory.store_conversation_episode Collection.empty
    "a long calm chat" [] .neutral 0 [] 180 "12:00" "Monday"
    "episode_1" 0).2

/-- C8 (counterexample): for intensity 0 and duration 180 minutes the code
stores importance `min(1, 0.4 + 0 + 180/60×0.3) = 1`, while the claim's
formula — whose duration contribution is capped at 0.3 — gives
`min(1, 0.4 + 0 + 0.3) = 0.7`.  The code has no inner cap. -/
theorem episode_importance_ne_spec :
    episodeLong.importance = 1
    ∧ specEpisodeImportance 0 180 = 7/10
    ∧ episodeLong.importance ≠ specEpisodeImportance 0 180 := by
  refine ⟨?_, ?_, ?_⟩ <;>
    norm_num [episodeLong, EpisodicMemory.store_conversation_episode,
      EpisodicMemory.store, specEpisodeImportance, min_def]

/-- C8 (amended): the episode stored by `end_session` has
`importance = min(1, 0.4 + 0.3×intensity + 0.3×(durationMin/60))` — the
duration term is not capped on its own, only the total is clamped at 1;
the spec's formula is recovered exactly when the session lasts at most 60
minutes. -/
theorem end_session_episode_importance (c : Collection) (summary : String)
    (topics : List String) (valence : EmotionalValence) (intensity : ℚ)
    (key_moments : List String) (duration : ℚ)
    (tod dow new_id : String) (now : ℚ) :
    (MemoryManager.end_session_episode c summary topics valence intensity
        key_moments duration tod dow new_id now).2.importance
      = min 1 ((4/10) + (3/10) * intensity + (3/10) * (duration / 60))
    ∧ (duration ≤ 60 →
        (MemoryManager.end_session_episode c summary topics valence
            intensity key_moments duration tod dow new_id now).2.importance
          = specEpisodeImportance intensity duration) := by
  have hval : (MemoryManager.end_session_episode c summary topics valence
      intensity key_moments duration tod dow new_id now).2.importance
      = min 1 ((4/10) + intensity * (3/10) + duration / 60 * (3/10)) := rfl
  constructor
  · rw [hval]
    congr 1
    ring
  · intro h
    rw [hval, specEpisodeImportance,
      min_eq_right (by linarith : duration / 60 ≤ 1)]
    congr 1
    ring

/-- Witness for C8's amended theorem at a 30-minute session of intensity
one half. -/
theorem end_session_episode_importance_witness :
    (MemoryManager.end_session_episode Collection.empty "s" [] .neutral
        (1/2) [] 30 "09:00" "Friday" "episode_2" 0).2.importance
      = specEpisodeImportance (1/2) 30 :=
  (end_session_episode_importance Collection.empty "s" [] .neutral (1/2)
    [] 30 "09:00" "Friday" "episode_2" 0).2 (by norm_num)

/-- A fully populated entry for the round-trip counterexample: non-empty
`related_memories`, a set `last_accessed` and a non-empty `metadata`. -/
def c9Entry : MemoryEntry :=
  { id := "mem_1"
    content := "hello"
    memory_type := .episodic
    timestamp := 5
    importance := 1/2
    emotional_valence := .positive
    emotional_intensity := 1/4
    tags := ["a", "b"]
    source := "conversation"
    related_memories := ["mem_0"]
    access_count := 2
    last_accessed := some 3
    decay_rate := 1/20
    metadata := [("k", .s "v")] }

/-- C9 (counterexample): storing `c9Entry` through `_store_in_chroma` and
reloading it through `_recall_from_chroma` yields an entry whose
`related_memories`, `last_accessed` and `metadata` have been reset to the
dataclass defaults, so the round-trip is not exact. -/
theorem store_reload_drops_fields :
    (BaseMemory.recallFromChroma
        (BaseMemory.storeInChroma Collection.empty c9Entry) ["mem_1"] 0).map
        (fun e => (e.related_memories, e.last_accessed, e.metadata))
      = [([], none, [])]
    ∧ c9Entry.related_memories = ["mem_0"]
    ∧ c9Entry.last_accessed = some 3
    ∧ c9Entry.metadata = [("k", .s "v")]
    ∧ BaseMemory.recallFromChroma
        (BaseMemory.storeInChroma Collection.empty c9Entry) ["mem_1"] 0
      ≠ [c9Entry] := by
  have h1 : (BaseMemory.recallFromChroma
      (BaseMemory.storeInChroma Collection.empty c9Entry) ["mem_1"] 0).map
      (fun e => (e.related_memories, e.last_accessed, e.metadata))
      = [([], none, [])] := rfl
  refine ⟨h1, rfl, rfl, rfl, fun hcontra => ?_⟩
  rw [hcontra] at h1
  simp [c9Entry] at h1

/-- `MemoryType(t.value)` recovers `t`. -/
lemma memoryType_ofValue_value (t : MemoryType) :
    MemoryType.ofValue t.value = t := by
  cases t <;> rfl

/-- `EmotionalValence(v.value)` recovers `v`. -/
lemma valence_ofValue_value (v : EmotionalValence) :
    EmotionalValence.ofValue v.value = v := by
  cases v <;> rfl

/-- C9 (amended): store-then-reload through ChromaDB preserves `id`,
`content`, `memory_type`, `timestamp`, `importance`, `emotional_valence`,
`emotional_intensity`, `source`, `access_count` and `decay_rate`, and
preserves `tags` exactly when the comma-join/split flattening is lossless
for them (each tag comma-free, not the singleton empty tag); the
`related_memories`, `last_accessed` and `metadata` fields are reset to the
dataclass defaults. -/
theorem store_reload_fields (e : MemoryEntry) (now : ℚ)
    (htags : splitTags (joinComma e.tags) = e.tags) :
    BaseMemory.recallFromChroma (BaseMemory.storeInChroma Collection.empty e)
        [e.id] now
      = [{ e with
             related_memories := []
             last_accessed := none
             metadata := [] }] := by
  simp [BaseMemory.recallFromChroma, BaseMemory.storeInChroma,
    Collection.empty, Collection.getById, BaseMemory.entryFromChroma,
    BaseMemory.chromaMetadata, List.find?, metaGetStr, metaGetNum,
    metaGetInt, metaGet, memoryType_ofValue_value,
    valence_ofValue_value, htags]

/-- Witness for C9's amended theorem at `c9Entry` (whose tags `["a","b"]`
survive the comma flattening). -/
theorem store_reload_fields_witness :
    BaseMemory.recallFromChroma
        (BaseMemory.storeInChroma Collection.empty c9Entry) [c9Entry.id] 0
      = [{ c9Entry with
             related_memories := []
             last_accessed := none
             metadata := [] }] :=
  store_reload_fields c9Entry 0 rfl

/-- C10: `set_thread_status` with a `thread_id` matching no existing
thread completes without raising and leaves the threads table (and the
whole database) unchanged — a silent no-op — whereas `continue_thread`
with the same unresolved reference raises. -/
theorem set_thread_status_silent_noop (db : ExplorationDB) (r : String)
    (st : ThreadStatus) (concl : Option String) (now : ℚ)
    (i q : String) (s : Option String) (lid : String) (now2 : ℚ)
    (h : ∀ t ∈ db.threads, t.id ≠ r ∧ t.name ≠ r) :
    ExplorationTracker.set_thread_status db r st concl now = db
    ∧ ExplorationTracker.continue_thread db r i q s lid now2
      = .error ("Thread " ++ r ++ " not found") := by
  constructor
  · cases db with
    | mk threads links =>
      simp only [ExplorationTracker.set_thread_status]
      congr 1
      conv_rhs => rw [← List.map_id threads]
      apply List.map_congr_left
      intro t ht
      simp only [id]
      rw [if_neg (h t ht).1]
  · exact continue_thread_error db r i q s lid now2 h

/-- Witness for C10 on the one-thread database `wDB`. -/
theorem set_thread_status_silent_noop_witness :
    ExplorationTracker.set_thread_status wDB "missing-id" .concluded
        (some "done") 9 = wDB
    ∧ ExplorationTracker.continue_thread wDB "missing-id" "i9" "q9" none
        "link_9" 9
      = .error ("Thread " ++ "missing-id" ++ " not found") :=
  set_thread_status_silent_noop wDB "missing-id" .concluded (some "done") 9
    "i9" "q9" none "link_9" 9
    (by
      intro t ht
      simp [wDB, ExplorationTracker.start_thread, ExplorationDB.empty]
        at ht
      subst ht
      refine ⟨by simp, by simp⟩)

end Clio
